import Mathlib

/-!
Shallow embedding of the MySQL INSERT-row-limit advisor of the bytebase SQL
review engine (plugin/advisor/mysql/advisor_insert_row_limit.go), together
with the pieces of the shared advisor framework it relies on.  Functions that
live in the framework packages outside the examined files are modelled from
the specification and marked as such in their doc comments.
-/

namespace Advisor

/-- Advice severity, the framework's Status values Success / Warn / Error. -/
inductive Status where
  | Success
  | Warn
  | Error
deriving DecidableEq, Repr

/-- The stable advice codes this advisor can emit.  `StatementSyntaxError`
is the code attached by the parser adapter on an unparseable script. -/
inductive Code where
  | Ok
  | Internal
  | StatementSyntaxError
  | InsertTooManyRows
deriving DecidableEq, Repr

/-- One finding of a rule: status, stable code, title, human content and a
1-based line (0 when unset, matching the Go zero value). -/
structure Advice where
  status : Status
  code : Code
  title : String
  content : String
  line : Nat
deriving DecidableEq, Repr

/-- A Go `interface\x7b\x7d` cell of a diagnostic-query result: the row-limit
decoder only distinguishes native int, int64, string, nested lists and a
default bucket for every other dynamic type. -/
inductive GoValue where
  | int (n : Int)
  | int64 (n : Int)
  | str (s : String)
  | list (xs : List GoValue)
  | null

/-- Decimal digit value, as used by Go's strconv for base-10 parsing. -/
def digitVal (c : Char) : Option Nat :=
  if c.isDigit then some (c.toNat - 48) else none

/-- Value of a non-empty all-digit character list, none otherwise. -/
def digitsVal (cs : List Char) : Option Nat :=
  if cs.isEmpty then none
  else
    cs.foldl
      (fun acc c =>
        match acc, digitVal c with
        | some a, some d => some (a * 10 + d)
        | _, _ => none)
      (some 0)

/-- Model of Go `strconv.ParseInt(s, 10, 64)`: an optional sign followed by
at least one decimal digit, and the value must fit in a signed 64-bit
integer; every other input is an error (`none`). -/
def parseInt64 (s : String) : Option Int :=
  let signed : Bool × List Char :=
    match s.data with
    | '-' :: rest => (true, rest)
    | '+' :: rest => (false, rest)
    | cs => (false, cs)
  match digitsVal signed.2 with
  | none => none
  | some n =>
    let v : Int := if signed.1 then -(n : Int) else (n : Int)
    if -(2 ^ 63) ≤ v ∧ v ≤ 2 ^ 63 - 1 then some v else none

/-- `getInsertRows` from advisor_insert_row_limit.go: positionally decodes
the EXPLAIN result `[columnName, columnTable, rowDataList]`, takes the second
data row, demands exactly 12 columns, and reads column index 9 as the
estimated row count (Go int, int64, or decimal string). -/
def getInsertRows (res : List GoValue) : Except String Int :=
  if res.length ≠ 3 then
    Except.error ("expected 3 but got " ++ toString res.length)
  else
    match res[2]? with
    | some (GoValue.list rowList) =>
      if rowList.length < 2 then
        Except.error "not found any data"
      else
        match rowList[1]? with
        | some (GoValue.list rowTwo) =>
          if rowTwo.length ≠ 12 then
            Except.error ("expected 12 but got " ++ toString rowTwo.length)
          else
            match rowTwo[9]? with
            | some (GoValue.int n) => Except.ok n
            | some (GoValue.int64 n) => Except.ok n
            | some (GoValue.str s) =>
              match parseInt64 s with
              | some v => Except.ok v
              | none => Except.error ("expected int or int64 but got string(" ++ s ++ ")")
            | _ => Except.error "expected int or in64 but got other"
        | _ => Except.error "expected row data list but got other"
    | _ => Except.error "expected row list but got other"

/-- Modelled from the spec: the outcome of the single diagnostic query the
engine may issue against the caller-supplied live database handle
(`advisor.Query`, outside the examined files).  An oracle maps the query text
to either a tabular result or a failure; a cancelled query is a failure. -/
abbrev QueryOracle := String → Except String (List GoValue)

/-- The statement-tree node kinds the row-limit checker distinguishes: an
`InsertStmt` (carrying its original text, the sizes of its VALUES row lists,
and whether a SELECT source is present, so `lists.length` is Go's
`len(node.Lists)` and `hasSelect` is `node.Select != nil`), and every other
node kind, which the checker ignores. -/
inductive NodeShape where
  | insertStmt (text : String) (lists : List Nat) (hasSelect : Bool)
  | other
deriving DecidableEq, Repr

/-- A parsed statement-tree node: its shape and the children the generated
`Accept` methods visit (for an InsertStmt: the SELECT source if any, the
table references, and the value expressions — leaves that are never
InsertStmt nodes themselves in the MySQL grammar, though the model does not
assume that). -/
inductive Node where
  | mk (shape : NodeShape) (children : List Node)

/-- The `insertRowLimitChecker` state: accumulated advice, configured
severity, rule title, the current statement's text and 1-based line, the
configured threshold, and whether a live database handle was supplied
(`driver != nil`). -/
structure InsertRowLimitChecker where
  adviceList : List Advice
  level : Status
  title : String
  text : String
  line : Nat
  maxRow : Int
  driver : Option Unit
deriving Repr

/-- `insertRowLimitChecker.Enter`: on an InsertStmt, either the static check
(no SELECT source: compare `len(node.Lists)` with the threshold) or the
dynamic check (SELECT source present and a live handle supplied: run
`EXPLAIN <text>`, decode the estimated row count, and compare); a failed
query or a decode failure is downgraded to an appended Advice.  The second
component is the visitor protocol's skipChildren flag, always `false`. -/
def enterChecker (world : QueryOracle) (c : InsertRowLimitChecker) (shape : NodeShape) :
    InsertRowLimitChecker × Bool :=
  match shape with
  | NodeShape.insertStmt text lists hasSelect =>
    let c' :=
      if hasSelect then
        match c.driver with
        | some _ =>
          match world ("EXPLAIN " ++ text) with
          | Except.error e =>
            { c with adviceList := c.adviceList ++
                [{ status := c.level, code := Code.InsertTooManyRows, title := c.title,
                   content := "\"" ++ c.text ++ "\" dry runs failed: " ++ e,
                   line := c.line }] }
          | Except.ok res =>
            match getInsertRows res with
            | Except.error e =>
              { c with adviceList := c.adviceList ++
                  [{ status := c.level, code := Code.Internal, title := c.title,
                     content := "failed to get row count for \"" ++ c.text ++ "\": " ++ e,
                     line := c.line }] }
            | Except.ok rowCount =>
              if rowCount > c.maxRow then
                { c with adviceList := c.adviceList ++
                    [{ status := c.level, code := Code.InsertTooManyRows, title := c.title,
                       content := "\"" ++ c.text ++ "\" inserts " ++ toString rowCount ++
                         " rows. The count exceeds " ++ toString c.maxRow ++ ".",
                       line := c.line }] }
              else c
        | none => c
      else
        if (lists.length : Int) > c.maxRow then
          { c with adviceList := c.adviceList ++
              [{ status := c.level, code := Code.InsertTooManyRows, title := c.title,
                 content := "\"" ++ c.text ++ "\" inserts " ++ toString lists.length ++
                   " rows. The count exceeds " ++ toString c.maxRow ++ ".",
                 line := c.line }] }
        else c
    (c', false)
  | NodeShape.other => (c, false)

/-- `insertRowLimitChecker.Leave`: no state change, keep traversing. -/
def leaveChecker (c : InsertRowLimitChecker) : InsertRowLimitChecker × Bool :=
  (c, true)

/-- The generated `Accept` traversal over a node sequence: for each node,
call Enter; unless it signals skipChildren, visit the children; then call
Leave.  State threads left to right. -/
def acceptList (world : QueryOracle) : InsertRowLimitChecker → List Node → InsertRowLimitChecker
  | c, [] => c
  | c, Node.mk shape children :: rest =>
    let p := enterChecker world c shape
    let c1 := if p.2 then (leaveChecker p.1).1 else (leaveChecker (acceptList world p.1 children)).1
    acceptList world c1 rest

/-- `(stmt).Accept(checker)` on a single statement tree. -/
def acceptNode (world : QueryOracle) (c : InsertRowLimitChecker) (n : Node) :
    InsertRowLimitChecker :=
  acceptList world c [n]

/-- A parsed statement: its tree, original text (`stmt.Text()`), and 1-based
starting line (`stmt.OriginTextPosition()`). -/
structure StmtNode where
  node : Node
  text : String
  line : Nat

/-- A raw script, modelled by its parse outcome: either the ordered statement
list the parser adapter produces, or a syntax failure with a best-effort line
and message. -/
inductive Script where
  | parsed (stmts : List StmtNode)
  | syntaxFail (line : Nat) (msg : String)

/-- Modelled from the spec: `parseStatement` (the MySQL parser adapter,
outside the examined files) turns raw text plus charset/collation into an
ordered statement list; on syntax failure it rejects the whole script with a
single Error-status Advice carrying the syntax code and a best-effort line. -/
def parseStatement (script : Script) (_charset _collation : String) :
    Except (List Advice) (List StmtNode) :=
  match script with
  | Script.parsed stmts => Except.ok stmts
  | Script.syntaxFail line msg =>
    Except.error
      [{ status := Status.Error, code := Code.StatementSyntaxError,
         title := "Syntax error", content := msg, line := line }]

/-- Rule severity levels as configured in the policy store. -/
inductive RuleLevel where
  | Disabled
  | Info
  | Warning
  | Error
deriving DecidableEq, Repr

/-- Modelled from the spec: `advisor.NewStatusBySQLReviewRuleLevel` (outside
the examined files) maps the configured level to the severity the rule emits;
Warning and Error map to the matching statuses, any other level (Disabled,
and Info, whose mapping the spec leaves unenumerated) is an engine error. -/
def NewStatusBySQLReviewRuleLevel : RuleLevel → Except String Status
  | RuleLevel.Error => Except.ok Status.Error
  | RuleLevel.Warning => Except.ok Status.Warn
  | _ => Except.error "unexpected rule level type"

/-- Modelled from the spec: the opaque `Rule.Payload` blob, as seen through
the number-type decoder — it either holds a number configuration or is
malformed. -/
inductive Payload where
  | number (n : Int)
  | malformed (msg : String)

/-- The decoded number-type rule configuration. -/
structure NumberTypeRulePayload where
  Number : Int
deriving DecidableEq, Repr

/-- Modelled from the spec: `advisor.UnmarshalNumberTypeRulePayload` (outside
the examined files) decodes the opaque payload into the number configuration
or fails with a decoding error. -/
def UnmarshalNumberTypeRulePayload : Payload → Except String NumberTypeRulePayload
  | Payload.number n => Except.ok { Number := n }
  | Payload.malformed msg => Except.error msg

/-- A review rule as read from the policy store. -/
structure Rule where
  type : String
  level : RuleLevel
  payload : Payload

/-- The per-call `advisor.Context`: charset, collation, the rule under
evaluation and the optional live database handle.  The cancellation token's
effect is folded into the query oracle's outcomes. -/
structure AdvisorContext where
  charset : String
  collation : String
  rule : Rule
  driver : Option Unit

/-- The Go return pair `([]advisor.Advice, error)`; `advice = none` models a
nil slice. -/
structure CheckResult where
  advice : Option (List Advice)
  err : Option String
deriving DecidableEq, Repr

/-- The synthetic Advice appended when traversal found nothing. -/
def okAdvice : Advice :=
  { status := Status.Success, code := Code.Ok, title := "OK", content := "", line := 0 }

/-- The tail of `Check`: substitute the single synthetic Success/Ok Advice
when the traversal appended nothing. -/
def synthesizeSuccess (collected : List Advice) : List Advice :=
  if collected.isEmpty then [okAdvice] else collected

/-- The checker state `Check` builds before traversal: empty advice, the
mapped severity, the rule type as title, zero-value text and line, the
decoded threshold, and the context's handle. -/
def initChecker (lv : Status) (ti : String) (n : Int) (d : Option Unit) :
    InsertRowLimitChecker :=
  { adviceList := [], level := lv, title := ti, text := "", line := 0, maxRow := n, driver := d }

/-- `InsertRowLimitAdvisor.Check`: parse (whole-script abort on syntax
failure), map the rule level, decode the number payload (either failure is a
typed error with a nil advice list), then — only for a positive threshold —
traverse every statement with one checker whose text/line fields are reset
per statement, and finally synthesize the Success Advice if nothing was
found. -/
def Check (world : QueryOracle) (ctx : AdvisorContext) (script : Script) : CheckResult :=
  match parseStatement script ctx.charset ctx.collation with
  | Except.error errAdvice => { advice := some errAdvice, err := none }
  | Except.ok stmtList =>
    match NewStatusBySQLReviewRuleLevel ctx.rule.level with
    | Except.error e => { advice := none, err := some e }
    | Except.ok level =>
      match UnmarshalNumberTypeRulePayload ctx.rule.payload with
      | Except.error e => { advice := none, err := some e }
      | Except.ok payload =>
        let checker : InsertRowLimitChecker :=
          initChecker level ctx.rule.type payload.Number ctx.driver
        let checker :=
          if payload.Number > 0 then
            stmtList.foldl
              (fun c stmt =>
                acceptNode world { c with text := stmt.text, line := stmt.line } stmt.node)
              checker
          else checker
        { advice := some (synthesizeSuccess checker.adviceList), err := none }

/-- An oracle for runs where no diagnostic query is expected to be issued. -/
def emptyOracle : QueryOracle := fun _ => Except.error "no database"

/-- The row-limit rule configured with threshold 2 at level Warning. -/
def rowLimitRuleW2 : Rule :=
  { type := "statement.insert.row-limit", level := RuleLevel.Warning,
    payload := Payload.number 2 }

/-- An invocation context for `rowLimitRuleW2` with no live handle. -/
def ctxNoDriver : AdvisorContext :=
  { charset := "utf8mb4", collation := "utf8mb4_general_ci",
    rule := rowLimitRuleW2, driver := none }

/-- Modelled from the spec: the parse of the single-statement script
`INSERT INTO t(id) VALUES (1),(2),(3)` — one InsertStmt with three VALUES
rows of one expression each, no SELECT source, starting at line 1. -/
def insertThreeRowsStmt : StmtNode :=
  { node := Node.mk
      (NodeShape.insertStmt "INSERT INTO t(id) VALUES (1),(2),(3)" [1, 1, 1] false)
      [Node.mk NodeShape.other []],
    text := "INSERT INTO t(id) VALUES (1),(2),(3)",
    line := 1 }

/-- Modelled from the spec: the parse of the single-statement script
`INSERT INTO t SELECT * FROM other` — one InsertStmt with no VALUES rows and
a SELECT source, starting at line 1. -/
def insertSelectStmt : StmtNode :=
  { node := Node.mk
      (NodeShape.insertStmt "INSERT INTO t SELECT * FROM other" [] true)
      [Node.mk NodeShape.other [], Node.mk NodeShape.other []],
    text := "INSERT INTO t SELECT * FROM other",
    line := 1 }

/-- Follows the spec's words: the coercion of the rows cell of the EXPLAIN
result from whichever scalar representation the dialect returns — native
integer, wide integer, or numeric text — into one canonical 64-bit integer.
Stated separately from `getInsertRows` so the two can be compared. -/
def coerceRowValue : GoValue → Option Int
  | GoValue.int n => some n
  | GoValue.int64 n => some n
  | GoValue.str s => parseInt64 s
  | _ => none

/-- An oracle whose diagnostic query always fails (e.g. cancelled). -/
def cancelOracle : QueryOracle := fun _ => Except.error "context canceled"

/-- A checker state mid-call for a Warning-level rule with threshold 2, a
live database handle attached, positioned on the statement
`INSERT INTO t SELECT * FROM other` at line 1. -/
def dynCheckerWarn : InsertRowLimitChecker :=
  { adviceList := [], level := Status.Warn, title := "statement.insert.row-limit",
    text := "INSERT INTO t SELECT * FROM other", line := 1, maxRow := 2,
    driver := some () }

/-- The same checker state with no live database handle. -/
def staticCheckerNoDriver : InsertRowLimitChecker :=
  { adviceList := [], level := Status.Warn, title := "statement.insert.row-limit",
    text := "INSERT INTO t SELECT * FROM other", line := 1, maxRow := 2,
    driver := none }

/-- An invocation context whose rule payload does not decode. -/
def ctxMalformedPayload : AdvisorContext :=
  { charset := "utf8mb4", collation := "utf8mb4_general_ci",
    rule := { type := "statement.insert.row-limit", level := RuleLevel.Warning,
              payload := Payload.malformed "invalid payload" },
    driver := none }

/-- An invocation context for the row-limit rule with threshold 0 (the
check disabled by a non-positive threshold) and no live handle. -/
def ctxThresholdZero : AdvisorContext :=
  { charset := "utf8mb4", collation := "utf8mb4_general_ci",
    rule := { type := "statement.insert.row-limit", level := RuleLevel.Warning,
              payload := Payload.number 0 },
    driver := none }

/-- The synthesized list is never empty. -/
theorem synthesizeSuccess_ne_nil (collected : List Advice) :
    1 ≤ (synthesizeSuccess collected).length := by
  unfold synthesizeSuccess
  split
  · simp
  · rename_i h
    cases collected with
    | nil => simp at h
    | cons a l => simp

/-- Enter never changes which database handle the checker holds. -/
theorem enterChecker_fst_driver (w : QueryOracle) (c : InsertRowLimitChecker)
    (s : NodeShape) : ((enterChecker w c s).1).driver = c.driver := by
  obtain ⟨adv, lv, ti, tx, ln, mr, dr⟩ := c
  cases s with
  | other => rfl
  | insertStmt t l hs =>
    simp only [enterChecker]
    cases hs with
    | false =>
      split
      · simp_all
      · split <;> rfl
    | true =>
      split
      · cases dr with
        | none => rfl
        | some u =>
          cases hq : w ("EXPLAIN " ++ t) with
          | error e => simp [hq]
          | ok res =>
            cases hg : getInsertRows res with
            | error e => simp [hq, hg]
            | ok n =>
              simp only [hq, hg]
              split <;> rfl
      · simp_all

/-- With no live handle, Enter consults no oracle: its result is the same
under any two worlds. -/
theorem enterChecker_world_irrel (w1 w2 : QueryOracle) (c : InsertRowLimitChecker)
    (s : NodeShape) (h : c.driver = none) :
    enterChecker w1 c s = enterChecker w2 c s := by
  obtain ⟨adv, lv, ti, tx, ln, mr, dr⟩ := c
  simp only at h
  subst h
  cases s with
  | other => rfl
  | insertStmt t l hs => cases hs <;> rfl

/-- The traversal never changes which database handle the checker holds. -/
theorem acceptList_driver (w : QueryOracle) :
    (ns : List Node) → (c : InsertRowLimitChecker) →
      (acceptList w c ns).driver = c.driver
  | [], c => by simp [acceptList]
  | Node.mk shape children :: rest, c => by
    simp only [acceptList, leaveChecker]
    split
    · exact (acceptList_driver w rest _).trans (enterChecker_fst_driver w c shape)
    · exact (acceptList_driver w rest _).trans
        ((acceptList_driver w children _).trans (enterChecker_fst_driver w c shape))

/-- With no live handle, the whole traversal consults no oracle: it computes
the same checker state under any two worlds. -/
theorem acceptList_world_irrel (w1 w2 : QueryOracle) :
    (ns : List Node) → (c : InsertRowLimitChecker) → c.driver = none →
      acceptList w1 c ns = acceptList w2 c ns
  | [], c, _ => by simp [acceptList]
  | Node.mk shape children :: rest, c, h => by
    have he := enterChecker_world_irrel w1 w2 c shape h
    have hd1 : (enterChecker w2 c shape).1.driver = none :=
      (enterChecker_fst_driver w2 c shape).trans h
    have hc := acceptList_world_irrel w1 w2 children (enterChecker w2 c shape).1 hd1
    simp only [acceptList, leaveChecker, he, hc]
    exact acceptList_world_irrel w1 w2 rest _ (by
      split
      · exact hd1
      · exact (acceptList_driver w2 children _).trans hd1)

/-- C2: an unparseable script is rejected whole — for every context (whatever
the rule payload or level) and every oracle, Check returns exactly the parser
adapter's single Error-status Advice with the syntax code and the best-effort
line, and no error; no rule logic contributes anything. -/
theorem syntax_failure_whole_script_abort (world : QueryOracle) (ctx : AdvisorContext)
    (line : Nat) (msg : String) :
    Check world ctx (Script.syntaxFail line msg) =
      { advice := some
          [{ status := Status.Error, code := Code.StatementSyntaxError,
             title := "Syntax error", content := msg, line := line }],
        err := none } := rfl

/-- C4: the script `INSERT INTO t(id) VALUES (1),(2),(3)` under the row-limit
rule with threshold 2 at level Warning yields exactly one Advice with status
Warning, code InsertTooManyRows, line 1, and content citing 3 rows and the
threshold 2. -/
theorem insert_three_rows_threshold_two :
    Check emptyOracle ctxNoDriver (Script.parsed [insertThreeRowsStmt]) =
      { advice := some
          [{ status := Status.Warn, code := Code.InsertTooManyRows,
             title := "statement.insert.row-limit",
             content :=
               "\"INSERT INTO t(id) VALUES (1),(2),(3)\" inserts 3 rows. The count exceeds 2.",
             line := 1 }],
        err := none } := by
  simp only [Check, parseStatement, ctxNoDriver, rowLimitRuleW2, insertThreeRowsStmt,
    NewStatusBySQLReviewRuleLevel, UnmarshalNumberTypeRulePayload, acceptNode, acceptList,
    enterChecker, leaveChecker, synthesizeSuccess, okAdvice, emptyOracle, List.foldl]
  decide

/-- Per-statement resetting of text/line before Accept never changes the
handle, so a whole-script run keeps it fixed. -/
theorem foldl_accept_driver (w : QueryOracle) :
    (stmts : List StmtNode) → (c : InsertRowLimitChecker) →
      (stmts.foldl
        (fun c stmt => acceptNode w { c with text := stmt.text, line := stmt.line } stmt.node)
        c).driver = c.driver
  | [], _ => rfl
  | s :: rest, c => by
    simp only [List.foldl, acceptNode]
    exact (foldl_accept_driver w rest _).trans (acceptList_driver w [s.node] _)

/-- A whole-script run with no live handle computes the same state under any
two worlds. -/
theorem foldl_accept_world_irrel (w1 w2 : QueryOracle) :
    (stmts : List StmtNode) → (c : InsertRowLimitChecker) → c.driver = none →
      stmts.foldl
          (fun c stmt => acceptNode w1 { c with text := stmt.text, line := stmt.line } stmt.node)
          c =
        stmts.foldl
          (fun c stmt => acceptNode w2 { c with text := stmt.text, line := stmt.line } stmt.node)
          c
  | [], _, _ => rfl
  | s :: rest, c, h => by
    have h' : ({ c with text := s.text, line := s.line } : InsertRowLimitChecker).driver = none := h
    simp only [List.foldl, acceptNode]
    rw [acceptList_world_irrel w1 w2 [s.node] _ h']
    exact foldl_accept_world_irrel w1 w2 rest _ ((acceptList_driver w2 [s.node] _).trans h')

/-- C9: with no live database handle attached, Check is a pure function of
script, rule, charset and collation — its result does not depend on the
external database world, so two runs agree exactly. -/
theorem check_deterministic_without_driver (w1 w2 : QueryOracle)
    (ctx : AdvisorContext) (script : Script) (h : ctx.driver = none) :
    Check w1 ctx script = Check w2 ctx script := by
  cases script with
  | syntaxFail line msg => rfl
  | parsed stmts =>
    simp only [Check, parseStatement]
    cases hl : NewStatusBySQLReviewRuleLevel ctx.rule.level with
    | error e => rfl
    | ok lv =>
      cases hp : UnmarshalNumberTypeRulePayload ctx.rule.payload with
      | error e => rfl
      | ok p =>
        have hc0 : (initChecker lv ctx.rule.type p.Number ctx.driver).driver = none := h
        dsimp only
        split
        · rw [foldl_accept_world_irrel w1 w2 stmts _ hc0]
        · rfl

/-- C9 witness: the two runs agree on a concrete driverless context. -/
theorem check_deterministic_without_driver_witness :
    Check emptyOracle ctxNoDriver (Script.parsed [insertThreeRowsStmt]) =
      Check cancelOracle ctxNoDriver (Script.parsed [insertThreeRowsStmt]) :=
  check_deterministic_without_driver emptyOracle cancelOracle ctxNoDriver
    (Script.parsed [insertThreeRowsStmt]) rfl

/-- C1: whenever Check completes without an engine-level error its Advice
list is non-empty, and an empty traversal result is replaced by exactly the
single synthetic Success/Ok Advice with title "OK" and empty content. -/
theorem active_rule_result_nonempty :
    (∀ collected : List Advice, collected = [] → synthesizeSuccess collected = [okAdvice]) ∧
    (∀ (world : QueryOracle) (ctx : AdvisorContext) (script : Script),
      (Check world ctx script).err = none →
      ∃ l, (Check world ctx script).advice = some l ∧ 1 ≤ l.length) := by
  constructor
  · intro collected h
    subst h
    rfl
  · intro world ctx script h
    cases script with
    | syntaxFail line msg => exact ⟨_, rfl, by simp⟩
    | parsed stmts =>
      simp only [Check, parseStatement] at h ⊢
      cases hl : NewStatusBySQLReviewRuleLevel ctx.rule.level with
      | error e => rw [hl] at h; simp at h
      | ok lv =>
        rw [hl] at h
        cases hp : UnmarshalNumberTypeRulePayload ctx.rule.payload with
        | error e => rw [hp] at h; simp at h
        | ok p =>
          dsimp only
          exact ⟨_, rfl, synthesizeSuccess_ne_nil _⟩

/-- C1 witness: a concrete error-free run yields a non-empty Advice list. -/
theorem active_rule_result_nonempty_witness :
    ∃ l, (Check emptyOracle ctxNoDriver (Script.parsed [insertThreeRowsStmt])).advice = some l ∧
      1 ≤ l.length :=
  active_rule_result_nonempty.2 emptyOracle ctxNoDriver (Script.parsed [insertThreeRowsStmt]) rfl

/-- C10: a zero or negative configured threshold skips the traversal
entirely — for any script that parses, Check returns exactly the synthetic
Success Advice, however many rows its INSERT statements hold. -/
theorem nonpositive_threshold_disables_check (world : QueryOracle) (ctx : AdvisorContext)
    (stmts : List StmtNode) (n : Int) (lv : Status)
    (hl : NewStatusBySQLReviewRuleLevel ctx.rule.level = Except.ok lv)
    (hp : UnmarshalNumberTypeRulePayload ctx.rule.payload = Except.ok { Number := n })
    (hn : n ≤ 0) :
    Check world ctx (Script.parsed stmts) = { advice := some [okAdvice], err := none } := by
  simp only [Check, parseStatement, hl, hp]
  rw [if_neg (by omega)]
  rfl

/-- C10 witness: threshold 0 on a three-row INSERT yields only Success. -/
theorem nonpositive_threshold_disables_check_witness :
    Check emptyOracle ctxThresholdZero (Script.parsed [insertThreeRowsStmt]) =
      { advice := some [okAdvice], err := none } :=
  nonpositive_threshold_disables_check emptyOracle ctxThresholdZero [insertThreeRowsStmt]
    0 Status.Warn rfl rfl (by decide)

/-- C5: an INSERT ... SELECT statement is a dynamic-only check — with no
live handle the enter step appends nothing for it, and on the concrete
script `INSERT INTO t SELECT * FROM other` the whole call returns only the
synthesized Success Advice. -/
theorem insert_select_without_driver_no_finding :
    (∀ (world : QueryOracle) (c : InsertRowLimitChecker) (t : String) (lists : List Nat),
      c.driver = none →
      (enterChecker world c (NodeShape.insertStmt t lists true)).1 = c) ∧
    Check emptyOracle ctxNoDriver (Script.parsed [insertSelectStmt]) =
      { advice := some [okAdvice], err := none } := by
  constructor
  · intro world c t lists h
    obtain ⟨adv, lv, ti, tx, ln, mr, dr⟩ := c
    simp only at h
    subst h
    rfl
  · simp only [Check, parseStatement, ctxNoDriver, rowLimitRuleW2, insertSelectStmt,
      NewStatusBySQLReviewRuleLevel, UnmarshalNumberTypeRulePayload, acceptNode, acceptList,
      enterChecker, leaveChecker, synthesizeSuccess, okAdvice, emptyOracle, List.foldl]
    decide

/-- C5 witness: the enter step leaves a concrete driverless checker
unchanged on an INSERT ... SELECT node. -/
theorem insert_select_without_driver_no_finding_witness :
    (enterChecker emptyOracle staticCheckerNoDriver
        (NodeShape.insertStmt "INSERT INTO t SELECT * FROM other" [] true)).1 =
      staticCheckerNoDriver :=
  insert_select_without_driver_no_finding.1 emptyOracle staticCheckerNoDriver
    "INSERT INTO t SELECT * FROM other" [] rfl

/-- C6 counterexample: on a matched InsertStmt (three rows over threshold 2,
a finding is recorded) the enter step returns skipChildren = false — it
signals descend, not "do not descend". -/
theorem enter_matched_insert_does_not_skip :
    (enterChecker emptyOracle staticCheckerNoDriver
        (NodeShape.insertStmt "INSERT INTO t(id) VALUES (1),(2),(3)" [1, 1, 1] false)).2 =
      false ∧
    (enterChecker emptyOracle staticCheckerNoDriver
        (NodeShape.insertStmt "INSERT INTO t(id) VALUES (1),(2),(3)" [1, 1, 1] false)).1.adviceList.length =
      1 := by
  constructor
  · rfl
  · rfl

/-- C6 amended: the enter step always returns skipChildren = false — the
traversal descends into every subtree, matched or not — and appends at most
one Advice per visited node, so one finding per InsertStmt node comes from
Enter appending at most once, not from a skip signal. -/
theorem enter_always_descends_one_finding (world : QueryOracle)
    (c : InsertRowLimitChecker) (s : NodeShape) :
    (enterChecker world c s).2 = false ∧
    (enterChecker world c s).1.adviceList.length ≤ c.adviceList.length + 1 := by
  obtain ⟨adv, lv, ti, tx, ln, mr, dr⟩ := c
  cases s with
  | other => exact ⟨rfl, by simp [enterChecker]⟩
  | insertStmt t l hs =>
    refine ⟨rfl, ?_⟩
    simp only [enterChecker]
    cases hs with
    | false =>
      split
      · simp_all
      · split <;> simp
    | true =>
      split
      · cases dr with
        | none => simp
        | some u =>
          cases hq : world ("EXPLAIN " ++ t) with
          | error e => simp [hq]
          | ok res =>
            simp only [hq]
            cases hg : getInsertRows res with
            | error e => simp [hg]
            | ok k =>
              simp only [hg]
              split <;> simp
      · simp_all

/-- C3 counterexample: with a live handle and a Warning-level rule, a failed
(cancelled) diagnostic query is recorded with code InsertTooManyRows — not
Internal — and with status Warn — not Error. -/
theorem failed_query_advice_not_internal :
    (enterChecker cancelOracle dynCheckerWarn
        (NodeShape.insertStmt "INSERT INTO t SELECT * FROM other" [] true)).1.adviceList =
      [{ status := Status.Warn, code := Code.InsertTooManyRows,
         title := "statement.insert.row-limit",
         content := "\"INSERT INTO t SELECT * FROM other\" dry runs failed: context canceled",
         line := 1 }] ∧
    Code.InsertTooManyRows ≠ Code.Internal ∧ Status.Warn ≠ Status.Error := by
  refine ⟨by decide, by decide, by decide⟩

/-- C3 amended: during a dynamic check, a failed or cancelled diagnostic
query appends an Advice with the rule's configured status and code
InsertTooManyRows; a failure decoding the diagnostic result appends an
Advice with the rule's configured status and code Internal; in both cases
Check returns its Advice list with no engine-level error. -/
theorem dynamic_failures_downgraded_to_advice :
    (∀ (world : QueryOracle) (c : InsertRowLimitChecker) (t : String) (lists : List Nat)
       (e : String),
      c.driver = some () →
      world ("EXPLAIN " ++ t) = Except.error e →
      (enterChecker world c (NodeShape.insertStmt t lists true)).1.adviceList =
        c.adviceList ++
          [{ status := c.level, code := Code.InsertTooManyRows, title := c.title,
             content := "\"" ++ c.text ++ "\" dry runs failed: " ++ e, line := c.line }]) ∧
    (∀ (world : QueryOracle) (c : InsertRowLimitChecker) (t : String) (lists : List Nat)
       (res : List GoValue) (e : String),
      c.driver = some () →
      world ("EXPLAIN " ++ t) = Except.ok res →
      getInsertRows res = Except.error e →
      (enterChecker world c (NodeShape.insertStmt t lists true)).1.adviceList =
        c.adviceList ++
          [{ status := c.level, code := Code.Internal, title := c.title,
             content := "failed to get row count for \"" ++ c.text ++ "\": " ++ e,
             line := c.line }]) ∧
    (∀ (world : QueryOracle) (ctx : AdvisorContext) (stmts : List StmtNode)
       (lv : Status) (p : NumberTypeRulePayload),
      NewStatusBySQLReviewRuleLevel ctx.rule.level = Except.ok lv →
      UnmarshalNumberTypeRulePayload ctx.rule.payload = Except.ok p →
      (Check world ctx (Script.parsed stmts)).err = none) := by
  refine ⟨?_, ?_, ?_⟩
  · intro world c t lists e hd hq
    obtain ⟨adv, lv, ti, tx, ln, mr, dr⟩ := c
    simp only at hd
    subst hd
    simp [enterChecker, hq]
  · intro world c t lists res e hd hq hg
    obtain ⟨adv, lv, ti, tx, ln, mr, dr⟩ := c
    simp only at hd
    subst hd
    simp [enterChecker, hq, hg]
  · intro world ctx stmts lv p hl hp
    simp only [Check, parseStatement, hl, hp]

/-- C3 amended witness: the cancelled diagnostic query on a concrete checker
appends exactly the dry-run-failed Advice. -/
theorem dynamic_failures_downgraded_to_advice_witness :
    (enterChecker cancelOracle dynCheckerWarn
        (NodeShape.insertStmt "INSERT INTO t SELECT * FROM other" [] true)).1.adviceList =
      dynCheckerWarn.adviceList ++
        [{ status := dynCheckerWarn.level, code := Code.InsertTooManyRows,
           title := dynCheckerWarn.title,
           content := "\"" ++ dynCheckerWarn.text ++ "\" dry runs failed: " ++ "context canceled",
           line := dynCheckerWarn.line }] :=
  dynamic_failures_downgraded_to_advice.1 cancelOracle dynCheckerWarn
    "INSERT INTO t SELECT * FROM other" [] "context canceled" rfl rfl

/-- C7 counterexample: a call whose payload is malformed but whose script
fails to parse returns the syntax Advice with no engine-level error — not a
typed error with a nil list, because parsing precedes payload decoding. -/
theorem malformed_payload_syntax_error_returns_advice :
    (Check emptyOracle ctxMalformedPayload (Script.syntaxFail 1 "syntax error")).err = none ∧
    (Check emptyOracle ctxMalformedPayload (Script.syntaxFail 1 "syntax error")).advice ≠
      none := by
  refine ⟨rfl, ?_⟩
  simp [Check, parseStatement]

/-- C7 amended: for every call whose script parses successfully and whose
payload cannot be decoded, Check returns a typed error (the level-mapping
error if the level itself is unmapped, otherwise the payload decoding error)
together with a nil Advice list. -/
theorem malformed_payload_aborting_error (world : QueryOracle) (ctx : AdvisorContext)
    (stmts : List StmtNode) (msg : String)
    (hp : UnmarshalNumberTypeRulePayload ctx.rule.payload = Except.error msg) :
    ∃ e, Check world ctx (Script.parsed stmts) = { advice := none, err := some e } := by
  simp only [Check, parseStatement]
  cases hl : NewStatusBySQLReviewRuleLevel ctx.rule.level with
  | error e => exact ⟨e, rfl⟩
  | ok lv =>
    rw [hp]
    exact ⟨msg, rfl⟩

/-- C7 amended witness: a concrete malformed payload aborts the call. -/
theorem malformed_payload_aborting_error_witness :
    ∃ e, Check emptyOracle ctxMalformedPayload (Script.parsed [insertThreeRowsStmt]) =
      { advice := none, err := some e } :=
  malformed_payload_aborting_error emptyOracle ctxMalformedPayload [insertThreeRowsStmt]
    "invalid payload" rfl

/-- C8: `getInsertRows` succeeds exactly on a 3-element result whose third
element is a row list of at least 2 rows, whose second row has exactly 12
columns, and whose column index 9 coerces — from native int, 64-bit int, or
decimal text — to the returned canonical 64-bit integer; every other shape
or value yields an error. -/
theorem getInsertRows_positional_contract (res : List GoValue) (n : Int) :
    getInsertRows res = Except.ok n ↔
      (res.length = 3 ∧
        ∃ rowList rowTwo v,
          res[2]? = some (GoValue.list rowList) ∧
          2 ≤ rowList.length ∧
          rowList[1]? = some (GoValue.list rowTwo) ∧
          rowTwo.length = 12 ∧
          rowTwo[9]? = some v ∧
          coerceRowValue v = some n) := by
  simp only [getInsertRows]
  by_cases h3 : res.length = 3
  case neg =>
    rw [if_pos h3]
    simp [h3]
  case pos =>
    rw [if_neg (by omega)]
    cases hg2 : res[2]? with
    | none => simp [hg2, h3]
    | some v =>
      cases v with
      | int k => simp [hg2, h3]
      | int64 k => simp [hg2, h3]
      | str s => simp [hg2, h3]
      | null => simp [hg2, h3]
      | list rowList =>
        dsimp only
        by_cases h2 : rowList.length < 2
        · rw [if_pos h2]
          simp [hg2, h3]
          omega
        · have h2' : 2 ≤ rowList.length := by omega
          rw [if_neg h2]
          cases hg1 : rowList[1]? with
          | none => simp [hg1, hg2, h3]
          | some v1 =>
            cases v1 with
            | int k => simp [hg1, hg2, h3]
            | int64 k => simp [hg1, hg2, h3]
            | str s => simp [hg1, hg2, h3]
            | null => simp [hg1, hg2, h3]
            | list rowTwo =>
              dsimp only
              by_cases h12 : rowTwo.length = 12
              · rw [if_neg (by omega)]
                cases hg9 : rowTwo[9]? with
                | none => simp [hg9, hg1, hg2, h3, h12]
                | some v9 =>
                  cases v9 with
                  | int k => simp [hg9, hg1, hg2, h3, h12, h2', coerceRowValue]
                  | int64 k => simp [hg9, hg1, hg2, h3, h12, h2', coerceRowValue]
                  | null => simp [hg9, hg1, hg2, h3, h12, coerceRowValue]
                  | list xs => simp [hg9, hg1, hg2, h3, h12, coerceRowValue]
                  | str s =>
                    cases hp : parseInt64 s with
                    | none => simp [hp, hg9, hg1, hg2, h3, h12, coerceRowValue]
                    | some k => simp [hp, hg9, hg1, hg2, h3, h12, h2', coerceRowValue]
              · rw [if_pos h12]
                simp [hg1, hg2, h3, h12]

end Advisor
